import Mathlib

/-!
Shallow embedding of the chirpy authentication subsystem.

The HTTP handlers (`loginHandler`, `refreshHandler`, `revokeHandler`,
`delChirpHandler`, `resetHandler`) are translated from `src/unnamed/part_000`
(the current `main.go`).  Go's `http.ResponseWriter` is modelled by `RW`:
`WriteHeader` sets the status only if none is committed yet (later calls are
superfluous no-ops, as in `net/http`), while `Write` appends to the body and
commits status 200 when none was set.  JSON marshalling is plumbing and is
modelled by the structured `Payload` inductive.

The `internal/auth` package's implementation is not part of the sources
(only `auth_test.go` is), so the access-token codec, the bearer-credential
extractor and the store-level revoke are modelled from the spec; each such
definition carries a doc comment starting `Modelled from the spec:`.
External-store reads and writes (SQL queries behind `database.Queries`) are
modelled as the corresponding pure list operations.
-/

deriving instance DecidableEq for Except

namespace Chirpy

/-- Modelled from the spec: the `AccessTokenCodec` token structure of spec
section 4.2 — `internal/auth`'s `MakeJWT`/`ValidateJWT` are absent from the
sources.  A token embeds `{subject, issuedAt, expiresAt, issuer}` plus a MAC
over that payload.  UUIDs are represented by naturals, instants by integers. -/
structure AccessToken where
  subject : Nat
  issuedAt : Int
  expiresAt : Int
  issuer : String
  sig : String
deriving DecidableEq

/-- Modelled from the spec: the MAC over the token payload, keyed by the
signing secret.  Only agreement/disagreement of recomputed MACs matters to
the claims, so the MAC is the keyed payload rendering itself. -/
def macSign (secret issuer : String) (subject : Nat) (issuedAt expiresAt : Int) : String :=
  secret ++ "|" ++ issuer ++ "|" ++ toString subject ++ "|" ++ toString issuedAt ++ "|" ++ toString expiresAt

/-- Modelled from the spec: `issue(subject, secret, ttl)` at clock time `now`
embeds the subject, issuer tag, `issuedAt = now`, `expiresAt = now + ttl` and
signs with the secret.  A negative `ttl` is a permitted input (the function is
total): it yields an already-expired token. -/
def issue (subject : Nat) (secret : String) (now ttl : Int) : AccessToken :=
  { subject := subject
    issuedAt := now
    expiresAt := now + ttl
    issuer := "chirpy"
    sig := macSign secret "chirpy" subject now (now + ttl) }

/-- The distinct verification error kinds of spec section 4.2.  Structured
tokens always parse, so the malformed outcome is unreachable here. -/
inductive VerifyError where
  | expired
  | badSignature
  | malformed
deriving DecidableEq

/-- Modelled from the spec: `verify(token, secret)` at clock time `now`
recomputes the MAC over the claimed payload (mismatch, covering wrong secret
and tampering alike, is `badSignature`); with a valid signature, `now`
strictly past `expiresAt` is `expired`; otherwise the subject is returned.
Signature is checked before expiry, per the spec's precedence. -/
def verify (tok : AccessToken) (secret : String) (now : Int) : Except VerifyError Nat :=
  if tok.sig = macSign secret tok.issuer tok.subject tok.issuedAt tok.expiresAt then
    if tok.expiresAt < now then .error .expired
    else .ok tok.subject
  else .error .badSignature

/-- The single failure of the bearer-credential extractor. -/
inductive AuthError where
  | missingCredential
deriving DecidableEq

/-- Modelled from the spec: the core of `extract(headers)` on a present
`Authorization` header value (a character list), spec section 4.4 —
`internal/auth`'s `GetBearerToken` is absent from the sources.  The value
must be exactly the case-sensitive scheme `Bearer`, one space, then a
non-empty token; any other shape is a missing credential. -/
def extractFrom (s : List Char) : Except AuthError (List Char) :=
  match s with
  | 'B' :: 'e' :: 'a' :: 'r' :: 'e' :: 'r' :: ' ' :: t =>
    if t.isEmpty then .error .missingCredential else .ok t
  | _ => .error .missingCredential

/-- Modelled from the spec: `extract(headers)`, where the header set is
reduced to the `Authorization` value if present. -/
def extract (h : Option (List Char)) : Except AuthError (List Char) :=
  match h with
  | none => .error .missingCredential
  | some s => extractFrom s

/-- A stored user row (`users` table): id, timestamps, email, password hash. -/
structure DBUser where
  id : Nat
  createdAt : Int
  updatedAt : Int
  email : String
  hashedPassword : String
deriving DecidableEq

/-- A stored refresh-token row (`refresh_tokens` table).  `expiresAt` and
`revokedAt` are `sql.NullTime` columns, hence options. -/
structure RefreshRec where
  token : String
  userID : Nat
  expiresAt : Option Int
  revokedAt : Option Int
deriving DecidableEq

/-- A stored chirp row (`chirps` table). -/
structure Chirp where
  id : Nat
  createdAt : Int
  updatedAt : Int
  body : String
  userID : Nat
deriving DecidableEq

/-- The `User` JSON shape returned by `loginHandler`: Go's empty-string token
fields are `none`/`""`. -/
structure UserOut where
  id : Nat
  createdAt : Int
  updatedAt : Int
  email : String
  token : Option AccessToken
  refreshToken : String
deriving DecidableEq

/-- The JSON documents the handlers marshal, kept structured. -/
inductive Payload where
  | userPayload : UserOut → Payload
  | tokenPayload : AccessToken → Payload
  | text : String → Payload
deriving DecidableEq

/-- Go `http.ResponseWriter` observable state: the committed status code and
the body chunks written so far. -/
structure RW where
  status : Option Nat
  body : List Payload
deriving DecidableEq

/-- A fresh response writer, before any handler code runs. -/
def emptyRW : RW := { status := none, body := [] }

/-- `w.WriteHeader(code)`: commits the status; a second call is a
superfluous no-op in `net/http`. -/
def writeHeader (w : RW) (code : Nat) : RW :=
  match w.status with
  | some _ => w
  | none => { w with status := some code }

/-- `w.Write(p)`: commits status 200 when none is set, then appends. -/
def write (w : RW) (p : Payload) : RW :=
  { status := some (w.status.getD 200), body := w.body ++ [p] }

/-- `respondWithJSON(w, code, payload)`: marshalling always succeeds on the
structured payloads, so this is `WriteHeader` then `Write`. -/
def respondWithJSON (w : RW) (code : Nat) (p : Payload) : RW :=
  write (writeHeader w code) p

/-- The decoded login request body. -/
structure LoginParams where
  email : String
  password : String
deriving DecidableEq

/-- One login request's view of the collaborators, as `loginHandler`
observes them: the JSON-decode result, the `GetUserByEmail` result for the
request's email, the password-hash check, the clock, the signing secret,
the randomly minted refresh-token value, and whether signing or persisting
fails.  `checkHash h p` is true when `CheckPasswordHash(h, p)` returns no
error. -/
structure LoginEnv where
  decoded : Option LoginParams
  findUser : Option DBUser
  checkHash : String → String → Bool
  now : Int
  secret : String
  signErr : Bool
  mintResult : Except Unit String
  persistErr : Bool

/-- The 1-hour access-token TTL (`time.Hour`), in seconds. -/
def accessTokenTTL : Int := 3600

/-- `loginHandler` (part_000 lines 261-309).  Decode failure is 500; unknown
email and failed password check each bare `WriteHeader(401)` and return.  The
three later failure branches (`MakeJWT`, `MakeRefreshToken`,
`CreateRefreshToken`) call `WriteHeader(500)` but do NOT return, so control
falls through to the final `respondWithJSON(w, 200, user)`; the model keeps
that fall-through.  On a `MakeJWT` error the token is Go's zero string
(`none` here); on a persist error `dbRefToken` is the zero row, so its
`.Token` is `""`. -/
def loginHandler (env : LoginEnv) : RW :=
  match env.decoded with
  | none => writeHeader emptyRW 500
  | some params =>
    match env.findUser with
    | none => writeHeader emptyRW 401
    | some dbUser =>
      if env.checkHash dbUser.hashedPassword params.password then
        let w1 := if env.signErr then writeHeader emptyRW 500 else emptyRW
        let token : Option AccessToken :=
          if env.signErr then none
          else some (issue dbUser.id env.secret env.now accessTokenTTL)
        let w2 := match env.mintResult with
          | .error _ => writeHeader w1 500
          | .ok _ => w1
        let refreshToken := match env.mintResult with
          | .error _ => ""
          | .ok s => s
        let w3 := if env.persistErr then writeHeader w2 500 else w2
        let storedToken := if env.persistErr then "" else refreshToken
        respondWithJSON w3 200 (.userPayload
          { id := dbUser.id
            createdAt := dbUser.createdAt
            updatedAt := dbUser.updatedAt
            email := dbUser.email
            token := token
            refreshToken := storedToken })
      else writeHeader emptyRW 401

/-- One refresh request's view of its collaborators: the bearer-extraction
outcome, the signing secret, the clock, and whether `MakeJWT` fails.  The
refresh-token store itself is passed separately. -/
structure RefreshEnv where
  bearer : Except AuthError String
  secret : String
  now : Int
  signErr : Bool

/-- `GetUserByToken`: look the presented opaque token up in the store. -/
def findToken (store : List RefreshRec) (tok : String) : Option RefreshRec :=
  store.find? (fun r => r.token == tok)

/-- `refreshHandler` (part_000 lines 311-346).  Extraction failure and
unknown token are 401; then the lifecycle check rejects with 401 when
`RevokedAt.Valid || !ExpiresAt.Valid || ExpiresAt.Time.Before(now)`; a
`MakeJWT` failure is 500; otherwise a fresh 1-hour access token for the
record's user is returned.  The store is never written. -/
def refreshHandler (env : RefreshEnv) (store : List RefreshRec) : RW × List RefreshRec :=
  match env.bearer with
  | .error _ => (writeHeader emptyRW 401, store)
  | .ok refToken =>
    match findToken store refToken with
    | none => (writeHeader emptyRW 401, store)
    | some rec =>
      if rec.revokedAt.isSome || rec.expiresAt.isNone
          || (match rec.expiresAt with
              | some e => decide (e < env.now)
              | none => false) then
        (writeHeader emptyRW 401, store)
      else if env.signErr then (writeHeader emptyRW 500, store)
      else
        (respondWithJSON emptyRW 200
          (.tokenPayload (issue rec.userID env.secret env.now accessTokenTTL)), store)

/-- Modelled from the spec: the store-level `markRevoked` behind
`database.Queries.RevokeToken` (the generated SQL layer is absent from the
sources).  Spec sections 4.5/6: an idempotent store-level no-op on an
already-revoked or nonexistent token; revocation is a one-way transition of
`revokedAt` from absent to present. -/
def markRevoked (store : List RefreshRec) (tok : String) (now : Int) : List RefreshRec :=
  store.map (fun r =>
    if r.token == tok && r.revokedAt.isNone then { r with revokedAt := some now } else r)

/-- `revokeHandler` (part_000 lines 348-364): extraction failure is 401;
otherwise the store marks the token revoked and the handler answers 204
with an empty body, regardless of the store's contents. -/
def revokeHandler (bearer : Except AuthError String) (store : List RefreshRec) (now : Int) :
    RW × List RefreshRec :=
  match bearer with
  | .error _ => (writeHeader emptyRW 401, store)
  | .ok tok => (writeHeader emptyRW 204, markRevoked store tok now)

/-- One delete-chirp request's view of its collaborators: the bearer token
(already structurally decoded), the service secret, the clock, and the
`uuid.Parse` outcome for the path's chirp id. -/
structure DelChirpEnv where
  bearer : Except AuthError AccessToken
  secret : String
  now : Int
  chirpIDRes : Except Unit Nat

/-- `DeleteChirp`: remove the chirp with the given id from the store. -/
def deleteChirp (chirps : List Chirp) (chirpID : Nat) : List Chirp :=
  chirps.filter (fun c => c.id != chirpID)

/-- `delChirpHandler` (part_000 lines 430-475): missing credential or
invalid JWT is 401, unparsable id is 400, unknown chirp is 404; a subject
different from the chirp's owner is 403 with no deletion; otherwise the
chirp is deleted and the handler answers 204. -/
def delChirpHandler (env : DelChirpEnv) (chirps : List Chirp) : RW × List Chirp :=
  match env.bearer with
  | .error _ => (writeHeader emptyRW 401, chirps)
  | .ok tok =>
    match verify tok env.secret env.now with
    | .error _ => (writeHeader emptyRW 401, chirps)
    | .ok userID =>
      match env.chirpIDRes with
      | .error _ => (writeHeader emptyRW 400, chirps)
      | .ok chirpID =>
        match chirps.find? (fun c => c.id == chirpID) with
        | none => (writeHeader emptyRW 404, chirps)
        | some dbChirp =>
          if userID ≠ dbChirp.userID then (writeHeader emptyRW 403, chirps)
          else (writeHeader emptyRW 204, deleteChirp chirps chirpID)

/-- `resetHandler` (part_000 lines 71-86): any platform other than `"dev"`
is 403 before anything is touched; on `"dev"` the hit counter is zeroed
first, then `DeleteUsers` runs — a store failure there is 500 with the
counter already zeroed and the users kept. -/
def resetHandler (platform : String) (storeOk : Bool) (hits : Int) (users : List DBUser) :
    RW × Int × List DBUser :=
  if platform ≠ "dev" then (writeHeader emptyRW 403, hits, users)
  else if storeOk then
    (write (writeHeader emptyRW 200) (.text "Deleted Users & Hits Reset."), 0, [])
  else (writeHeader emptyRW 500, 0, users)

/-- C4: for every subject, secret and strictly positive ttl, verifying the
token produced by `issue` with the same secret (and the same clock reading)
succeeds and returns exactly that subject. -/
theorem verify_issue_roundtrip (s : Nat) (secret : String) (now ttl : Int)
    (h : 0 < ttl) : verify (issue s secret now ttl) secret now = .ok s := by
  have hlt : ¬ (now + ttl < now) := by omega
  simp [verify, issue, hlt]

/-- Witness for C4 at subject 7, the test's secret, and a 5-minute ttl. -/
theorem verify_issue_roundtrip_witness :
    0 < (300 : Int) ∧ verify (issue 7 "secrettest" 0 300) "secrettest" 0 = .ok 7 :=
  ⟨by decide, verify_issue_roundtrip 7 "secrettest" 0 300 (by decide)⟩

/-- C5: `issue` is total, so a negated positive ttl is a permitted input and
never an error; the resulting token is already expired, and verifying it
with the same secret fails with the `expired` error. -/
theorem verify_issue_negative_ttl_expired (s : Nat) (secret : String) (now ttl : Int)
    (h : 0 < ttl) : verify (issue s secret now (-ttl)) secret now = .error .expired := by
  have hlt : now + -ttl < now := by omega
  simp [verify, issue, hlt]

/-- Witness for C5 at subject 7, the test's secret, and a negated 5-minute
ttl. -/
theorem verify_issue_negative_ttl_expired_witness :
    0 < (300 : Int) ∧
      verify (issue 7 "secrettest" 0 (-300)) "secrettest" 0 = .error .expired :=
  ⟨by decide, verify_issue_negative_ttl_expired 7 "secrettest" 0 300 (by decide)⟩

/-- C6: the extractor returns `t` exactly when the `Authorization` value is
the case-sensitive scheme `Bearer`, one space, then the non-empty token `t`;
an absent header, a different scheme (`Basic abc123`), a missing space
separator (`Bearerabc123`), and an empty token all yield the missing
credential error, and every accepted header has the `Bearer`-space-token
shape. -/
theorem extract_bearer_spec :
    (∀ t : List Char, t ≠ [] →
      extract (some ('B' :: 'e' :: 'a' :: 'r' :: 'e' :: 'r' :: ' ' :: t)) = .ok t) ∧
    extract none = .error .missingCredential ∧
    extract (some "Basic abc123".toList) = .error .missingCredential ∧
    extract (some "Bearerabc123".toList) = .error .missingCredential ∧
    extract (some "Bearer ".toList) = .error .missingCredential ∧
    (∀ s t : List Char, extract (some s) = .ok t →
      s = 'B' :: 'e' :: 'a' :: 'r' :: 'e' :: 'r' :: ' ' :: t ∧ t ≠ []) := by
  refine ⟨?_, rfl, by decide, by decide, by decide, ?_⟩
  · intro t ht
    simp [extract, extractFrom, ht]
  · intro s t h
    have h' : extractFrom s = .ok t := h
    unfold extractFrom at h'
    split at h'
    · rename_i t'
      by_cases he : t'.isEmpty
      · rw [if_pos he] at h'
        cases h'
      · rw [if_neg he] at h'
        cases h'
        exact ⟨rfl, by simpa using he⟩
    · cases h'

/-- Witness for C6: the spec's accepted example `Bearer abc123`. -/
theorem extract_bearer_spec_witness :
    extract (some ('B' :: 'e' :: 'a' :: 'r' :: 'e' :: 'r' :: ' ' :: "abc123".toList)) =
      .ok "abc123".toList ∧
    extract none = .error .missingCredential :=
  ⟨extract_bearer_spec.1 "abc123".toList (by decide), extract_bearer_spec.2.1⟩

/-- C1: a login whose email matches no stored user and a login whose email
matches a stored user but whose plaintext fails the password-hash check
produce the identical response — a bare 401 with an empty body — so the two
causes are externally indistinguishable. -/
theorem login_failure_indistinguishable (env1 env2 : LoginEnv)
    (p1 p2 : LoginParams) (u : DBUser)
    (h1d : env1.decoded = some p1) (h1f : env1.findUser = none)
    (h2d : env2.decoded = some p2) (h2f : env2.findUser = some u)
    (h2c : env2.checkHash u.hashedPassword p2.password = false) :
    loginHandler env1 = loginHandler env2 ∧
    loginHandler env1 = { status := some 401, body := [] } := by
  have he1 : loginHandler env1 = writeHeader emptyRW 401 := by
    simp [loginHandler, h1d, h1f]
  have he2 : loginHandler env2 = writeHeader emptyRW 401 := by
    simp [loginHandler, h2d, h2f, h2c]
  exact ⟨he1.trans he2.symm, he1⟩

/-- A login against an empty user store. -/
def envUnknownEmail : LoginEnv :=
  { decoded := some { email := "ghost@example.com", password := "pw" }
    findUser := none
    checkHash := fun _ _ => false
    now := 0
    secret := "tokensecret"
    signErr := false
    mintResult := .ok "refreshvalue"
    persistErr := false }

/-- A stored user for the concrete login scenarios. -/
def alice : DBUser :=
  { id := 7, createdAt := 1, updatedAt := 2
    email := "alice@example.com", hashedPassword := "hash-of-correct-pw" }

/-- A login that finds `alice` but fails the password check. -/
def envWrongPassword : LoginEnv :=
  { decoded := some { email := "alice@example.com", password := "wrong" }
    findUser := some alice
    checkHash := fun _ _ => false
    now := 0
    secret := "tokensecret"
    signErr := false
    mintResult := .ok "refreshvalue"
    persistErr := false }

/-- Witness for C1: the two concrete failing logins coincide on a bare 401. -/
theorem login_failure_indistinguishable_witness :
    loginHandler envUnknownEmail = loginHandler envWrongPassword ∧
    loginHandler envUnknownEmail = { status := some 401, body := [] } :=
  login_failure_indistinguishable envUnknownEmail envWrongPassword
    { email := "ghost@example.com", password := "pw" }
    { email := "alice@example.com", password := "wrong" }
    alice rfl rfl rfl rfl rfl

/-- A login that authenticates `alice` but whose refresh-token persist call
fails: the handler's 500 branch at part_000 line 304 lacks a `return`. -/
def envPersistFail : LoginEnv :=
  { decoded := some { email := "alice@example.com", password := "correct-pw" }
    findUser := some alice
    checkHash := fun _ _ => true
    now := 0
    secret := "tokensecret"
    signErr := false
    mintResult := .ok "refreshvalue"
    persistErr := true }

/-- C3 failing input: when persisting the refresh-token record fails, the
handler commits status 500 and then — the `return` being absent — still
falls through and writes the success user payload (with the zero-row's
empty refresh token), so failure and success are emitted together. -/
theorem login_persist_failure_dual_response :
    (loginHandler envPersistFail).status = some 500 ∧
    (loginHandler envPersistFail).body =
      [Payload.userPayload
        { id := 7, createdAt := 1, updatedAt := 2
          email := "alice@example.com"
          token := some (issue 7 "tokensecret" 0 accessTokenTTL)
          refreshToken := "" }] :=
  ⟨rfl, rfl⟩

/-- The claim's usability predicate taken at its word: `revokedAt` absent
and `expiresAt` present and strictly later than `now`. -/
def strictUsable (rec : RefreshRec) (now : Int) : Bool :=
  rec.revokedAt.isNone &&
    (match rec.expiresAt with
     | some e => decide (now < e)
     | none => false)

/-- An unrevoked record whose expiry instant is exactly the clock reading of
`envAtExpiry`. -/
def recAtExpiry : RefreshRec :=
  { token := "rtok", userID := 9, expiresAt := some 5, revokedAt := none }

/-- A refresh request arriving exactly at `recAtExpiry`'s expiry instant. -/
def envAtExpiry : RefreshEnv :=
  { bearer := .ok "rtok", secret := "tokensecret", now := 5, signErr := false }

/-- C2 counterexample: at `now = expiresAt` the record is not usable under
the claim's strict reading, yet `refreshHandler` accepts it with 200
instead of rejecting with 401 — Go's `ExpiresAt.Time.Before(now)` is a
strict comparison, so the boundary instant passes the lifecycle gate. -/
theorem refresh_strict_expiry_counterexample :
    strictUsable recAtExpiry envAtExpiry.now = false ∧
    (refreshHandler envAtExpiry [recAtExpiry]).1.status = some 200 ∧
    (refreshHandler envAtExpiry [recAtExpiry]).1.status ≠ some 401 := by
  refine ⟨rfl, rfl, by decide⟩

/-- C2 (amended): with a well-formed bearer whose token the store resolves
to `rec` and no signing failure, the refresh operation succeeds (200) iff
`revokedAt` is absent and `expiresAt` is present and not earlier than `now`
(that is, `now ≤ expiresAt` — the code's `Before` check is strict, so a
record expiring exactly now is still accepted), and rejects with 401 in
every other combination. -/
theorem refresh_usable_iff (env : RefreshEnv) (store : List RefreshRec)
    (tk : String) (rec : RefreshRec)
    (hb : env.bearer = .ok tk) (hf : findToken store tk = some rec)
    (hs : env.signErr = false) :
    ((refreshHandler env store).1.status = some 200 ↔
      (rec.revokedAt = none ∧ ∃ e, rec.expiresAt = some e ∧ env.now ≤ e)) ∧
    ((refreshHandler env store).1.status = some 401 ↔
      ¬ (rec.revokedAt = none ∧ ∃ e, rec.expiresAt = some e ∧ env.now ≤ e)) := by
  rcases rec with ⟨tok, uid, eAt, rAt⟩
  cases rAt with
  | some r =>
    simp [refreshHandler, hb, hf, writeHeader, emptyRW]
  | none =>
    cases eAt with
    | none =>
      simp [refreshHandler, hb, hf, writeHeader, emptyRW]
    | some e =>
      by_cases hlt : e < env.now
      · simp [refreshHandler, hb, hf, hlt, writeHeader, emptyRW]
      · simp [refreshHandler, hb, hf, hlt, hs, respondWithJSON, write, writeHeader, emptyRW]
        all_goals omega

/-- A live record for the refresh scenarios. -/
def recLive : RefreshRec :=
  { token := "rlive", userID := 4, expiresAt := some 100, revokedAt := none }

/-- A refresh request for `recLive` well before its expiry. -/
def envLive : RefreshEnv :=
  { bearer := .ok "rlive", secret := "tokensecret", now := 50, signErr := false }

/-- Witness for the amended C2 at a live record and `now` before expiry. -/
theorem refresh_usable_iff_witness :
    (((refreshHandler envLive [recLive]).1.status = some 200 ↔
      (recLive.revokedAt = none ∧ ∃ e, recLive.expiresAt = some e ∧ envLive.now ≤ e)) ∧
    ((refreshHandler envLive [recLive]).1.status = some 401 ↔
      ¬ (recLive.revokedAt = none ∧ ∃ e, recLive.expiresAt = some e ∧ envLive.now ≤ e))) :=
  refresh_usable_iff envLive [recLive] "rlive" recLive rfl rfl rfl

/-- C7: the refresh operation never writes the refresh-token store — the
presented record keeps its token value, `expiresAt` and `revokedAt`
verbatim — and on success its entire output is one fresh access token
whose subject is the found record's user identity. -/
theorem refresh_frame (env : RefreshEnv) (store : List RefreshRec) :
    (refreshHandler env store).2 = store ∧
    (∀ tk rec, env.bearer = .ok tk → findToken store tk = some rec →
      (refreshHandler env store).1.status = some 200 →
      (refreshHandler env store).1.body =
        [.tokenPayload (issue rec.userID env.secret env.now accessTokenTTL)]) := by
  constructor
  · unfold refreshHandler
    split
    · rfl
    · split
      · rfl
      · split
        · rfl
        · split <;> rfl
  · intro tk rec hb hf hst
    rcases rec with ⟨tok, uid, eAt, rAt⟩
    cases rAt with
    | some r => simp [refreshHandler, hb, hf, writeHeader, emptyRW] at hst
    | none =>
      cases eAt with
      | none => simp [refreshHandler, hb, hf, writeHeader, emptyRW] at hst
      | some e =>
        by_cases hlt : e < env.now
        · simp [refreshHandler, hb, hf, hlt, writeHeader, emptyRW] at hst
        · cases hsg : env.signErr with
          | true =>
            simp [refreshHandler, hb, hf, hlt, hsg, writeHeader, emptyRW] at hst
          | false =>
            simp [refreshHandler, hb, hf, hlt, hsg, respondWithJSON, write,
              writeHeader, emptyRW]

/-- A concrete refresh request and store for the C7 witness. -/
def envRefreshW : RefreshEnv :=
  { bearer := .ok "rlive7", secret := "tokensecret", now := 10, signErr := false }

/-- The live record the C7 witness refreshes. -/
def recRefreshW : RefreshRec :=
  { token := "rlive7", userID := 11, expiresAt := some 99, revokedAt := none }

/-- Witness for C7: a concrete successful refresh leaves the store intact
and answers with exactly one fresh token for the record's user. -/
theorem refresh_frame_witness :
    (refreshHandler envRefreshW [recRefreshW]).2 = [recRefreshW] ∧
    (refreshHandler envRefreshW [recRefreshW]).1.body =
      [.tokenPayload (issue recRefreshW.userID envRefreshW.secret envRefreshW.now accessTokenTTL)] :=
  ⟨(refresh_frame envRefreshW [recRefreshW]).1,
    (refresh_frame envRefreshW [recRefreshW]).2 "rlive7" recRefreshW rfl rfl rfl⟩

/-- Marking a token revoked twice leaves the store exactly as marking it
once: the second pass finds `revokedAt` already present (or the token still
absent) and changes nothing. -/
theorem markRevoked_idem (s : List RefreshRec) (tok : String) (n1 n2 : Int) :
    markRevoked (markRevoked s tok n1) tok n2 = markRevoked s tok n1 := by
  simp only [markRevoked, List.map_map]
  apply List.map_congr_left
  intro r _
  rcases r with ⟨t, u, eAt, rAt⟩
  cases rAt with
  | some x => simp [Function.comp]
  | none =>
    by_cases ht : t == tok
    · simp [Function.comp, ht]
    · simp [Function.comp, ht]

/-- C8: with a well-formed bearer, the revoke operation answers 204 with an
empty body no matter what the store holds — a live token, an already-revoked
token and a nonexistent token are indistinguishable at the boundary — and a
second revoke of the same token returns the same response and leaves the
store exactly as the first revoke did. -/
theorem revoke_idempotent_success (tok : String) (n1 n2 : Int)
    (s1 s2 : List RefreshRec) :
    (revokeHandler (.ok tok) s1 n1).1 = (revokeHandler (.ok tok) s2 n2).1 ∧
    (revokeHandler (.ok tok) s1 n1).1 = { status := some 204, body := [] } ∧
    (revokeHandler (.ok tok) (revokeHandler (.ok tok) s1 n1).2 n2).1 =
      (revokeHandler (.ok tok) s1 n1).1 ∧
    (revokeHandler (.ok tok) (revokeHandler (.ok tok) s1 n1).2 n2).2 =
      (revokeHandler (.ok tok) s1 n1).2 := by
  refine ⟨rfl, rfl, rfl, ?_⟩
  simp only [revokeHandler]
  exact markRevoked_idem s1 tok n1 n2

/-- C9: a chirp is deleted only when the request's bearer token verifies
under the service secret and its subject owns the chirp; when the subject
differs from the owner the handler answers 403 and the chirp store is
unchanged. -/
theorem delChirp_owner_guard (env : DelChirpEnv) (chirps : List Chirp) :
    ((delChirpHandler env chirps).2 ≠ chirps →
      ∃ tok uid chirpID dbChirp,
        env.bearer = .ok tok ∧
        verify tok env.secret env.now = .ok uid ∧
        env.chirpIDRes = .ok chirpID ∧
        chirps.find? (fun c => c.id == chirpID) = some dbChirp ∧
        uid = dbChirp.userID) ∧
    (∀ tok uid chirpID dbChirp,
      env.bearer = .ok tok →
      verify tok env.secret env.now = .ok uid →
      env.chirpIDRes = .ok chirpID →
      chirps.find? (fun c => c.id == chirpID) = some dbChirp →
      uid ≠ dbChirp.userID →
      (delChirpHandler env chirps).1.status = some 403 ∧
      (delChirpHandler env chirps).2 = chirps) := by
  constructor
  · intro hne
    cases hb : env.bearer with
    | error e => simp [delChirpHandler, hb] at hne
    | ok tok =>
      cases hv : verify tok env.secret env.now with
      | error e => simp [delChirpHandler, hb, hv] at hne
      | ok uid =>
        cases hc : env.chirpIDRes with
        | error e => simp [delChirpHandler, hb, hv, hc] at hne
        | ok chirpID =>
          cases hfind : chirps.find? (fun c => c.id == chirpID) with
          | none => simp [delChirpHandler, hb, hv, hc, hfind] at hne
          | some dbChirp =>
            by_cases huid : uid = dbChirp.userID
            · exact ⟨tok, uid, chirpID, dbChirp, rfl, hv, rfl, hfind, huid⟩
            · simp [delChirpHandler, hb, hv, hc, hfind, huid] at hne
  · intro tok uid chirpID dbChirp hb hv hc hfind huid
    simp [delChirpHandler, hb, hv, hc, hfind, huid, writeHeader, emptyRW]

/-- The request of a non-owner (subject 2) against `chirpW` (owned by 5). -/
def envDelForeign : DelChirpEnv :=
  { bearer := .ok (issue 2 "tokensecret" 0 accessTokenTTL)
    secret := "tokensecret", now := 0, chirpIDRes := .ok 1 }

/-- The stored chirp the C9 witness tries to delete. -/
def chirpW : Chirp :=
  { id := 1, createdAt := 0, updatedAt := 0, body := "hello", userID := 5 }

/-- Witness for C9: subject 2's valid token against chirp 1 owned by user 5
draws a 403 and leaves the store untouched. -/
theorem delChirp_owner_guard_witness :
    (delChirpHandler envDelForeign [chirpW]).1.status = some 403 ∧
    (delChirpHandler envDelForeign [chirpW]).2 = [chirpW] :=
  (delChirp_owner_guard envDelForeign [chirpW]).2
    (issue 2 "tokensecret" 0 accessTokenTTL) 2 1 chirpW rfl rfl rfl rfl (by decide)

/-- C10: any platform other than the exact string `dev` draws a 403 and
leaves the hit counter and the user store untouched; users are wiped and the
counter zeroed only on `dev` (and on `dev` with a healthy store they are). -/
theorem reset_dev_only (platform : String) (storeOk : Bool) (hits : Int)
    (users : List DBUser) :
    (platform ≠ "dev" →
      (resetHandler platform storeOk hits users).1.status = some 403 ∧
      (resetHandler platform storeOk hits users).2.1 = hits ∧
      (resetHandler platform storeOk hits users).2.2 = users) ∧
    ((resetHandler platform storeOk hits users).2.2 ≠ users ∨
        (resetHandler platform storeOk hits users).2.1 ≠ hits →
      platform = "dev") ∧
    (platform = "dev" → storeOk = true →
      (resetHandler platform storeOk hits users).2.2 = [] ∧
      (resetHandler platform storeOk hits users).2.1 = 0) := by
  by_cases hp : platform = "dev"
  · cases storeOk with
    | true =>
      refine ⟨fun h => absurd hp h, fun _ => hp, fun _ _ => ?_⟩
      simp [resetHandler, hp]
    | false =>
      refine ⟨fun h => absurd hp h, fun _ => hp, fun _ h => by cases h⟩
  · refine ⟨fun _ => ?_, fun h => ?_, fun h => absurd h hp⟩
    · simp [resetHandler, hp, writeHeader, emptyRW]
    · rcases h with h | h <;> simp [resetHandler, hp] at h

/-- A stored user for the C10 witness. -/
def bob : DBUser :=
  { id := 3, createdAt := 0, updatedAt := 0
    email := "bob@example.com", hashedPassword := "hash" }

/-- Witness for C10: on platform `prod` the reset is refused and both the
counter and the users survive; on `dev` the users are wiped and the counter
zeroed. -/
theorem reset_dev_only_witness :
    ((resetHandler "prod" true 3 [bob]).1.status = some 403 ∧
      (resetHandler "prod" true 3 [bob]).2.1 = 3 ∧
      (resetHandler "prod" true 3 [bob]).2.2 = [bob]) ∧
    ((resetHandler "dev" true 3 [bob]).2.2 = [] ∧
      (resetHandler "dev" true 3 [bob]).2.1 = 0) :=
  ⟨(reset_dev_only "prod" true 3 [bob]).1 (by decide),
    (reset_dev_only "dev" true 3 [bob]).2.2 rfl rfl⟩

end Chirpy
